import Mathlib

/-! # silicondzor: account registration, e-mail verification and sign-in

Shallow embedding of the request handlers of `src/backend/server.js`
(`new_account`, `sign_in`, `new_account_verify`, `add_tech_event`) and of the
hourly sweep of `register_email_users`.

Every handler is a function from the state before the request to the state
after it and the outcome the client observes. The state holds the database,
the registry `register_email_users`, the session of the requesting client and
the list of calls issued so far, in order. What the handlers cannot decide by
themselves (the uuid drawn, the bcrypt results, failures of the database and
of the mail transport, the process environment) is given by an `Env`.
-/

set_option autoImplicit false

namespace Silicondzor

/-! ## Values -/

/-- Value of `process.env.NODE_ENV`, as far as server.js tells values apart. -/
inductive NodeEnv
  | debug
  | production
  | other
  deriving DecidableEq, Repr

/-- Errors that a call made by a handler can throw or reject with. -/
inductive Err
  | type_error
  | db_error
  | constraint
  | hash_error
  | compare_mismatch
  | mail_error
  deriving DecidableEq, Repr

/-- Modelled from the spec: the reason constants of `../lib/replies` (not in the
source tree) that server.js passes to `replies.fail`; `err_msg e` stands for
the expression `err.msg` of a caught error `e`. -/
inductive Reason
  | invalid_username_already_picked
  | invalid_credentials
  | invalid_email
  | invalid_session
  | err_msg (e : Err)
  deriving DecidableEq, Repr

/-- Modelled from the spec: the payloads built by `replies.ok()` and
`replies.fail(reason)` of `../lib/replies` (not in the source tree), the
uniform status payload of the spec, section 7. -/
inductive Reply
  | ok
  | fail (reason : Reason)
  deriving DecidableEq, Repr

/-- What the client of one request observes. `ended r` is `res.end(r)`,
`redirect p` is `res.redirect(p)`, `thrown e` is an exception leaving a
synchronous handler, `unhandled_rejection e` is a rejected `await` outside any
`try` of an async handler: no response is written. -/
inductive Outcome
  | ended (r : Reply)
  | redirect (path : String)
  | thrown (e : Err)
  | unhandled_rejection (e : Err)
  deriving DecidableEq, Repr

/-! ## Database -/

/-- Row of table `account`. The schema is not in the source tree.
Modelled from the spec: `account(email UNIQUE, hashed_password, is_verified)`
with `is_verified` defaulting to false (0); column `id` is read by
server.js:208 and is taken to be the integer key given in insertion order. -/
structure Account where
  id : Nat
  email : String
  hashed_password : String
  is_verified : Nat
  deriving DecidableEq, Repr

/-- Row of table `event`, the six values bound at server.js:201-209.
`start` and `end_` hold `(new Date(x)).getTime()`, `none` for NaN. -/
structure Event where
  title : Option String
  all_day : Bool
  start : Option Int
  end_ : Option Int
  description : Option String
  creator : Nat
  deriving DecidableEq, Repr

/-- The database `silicondzor.db`. -/
structure Store where
  account : List Account
  event : List Event
  deriving DecidableEq, Repr

/-- The statements server.js sends, with their bound parameters. A parameter
that may be `undefined` in the JavaScript is an `Option` and binds as NULL. -/
inductive Query
  | select_email (email : String)
  | insert_account (e : String) (h : String)
  | select_hashed_password (e : String)
  | update_is_verified (username : Option String)
  | select_account (username : Option String)
  | insert_event (ev : Event)
  deriving DecidableEq, Repr

/-- SQL comparison `column = $param`: never true for a NULL parameter. -/
def sql_eq (column : String) (param : Option String) : Bool :=
  match param with
  | none => false
  | some p => column == p

/-- Modelled from the spec: `select email from account where email = $email`
(server.js:120) through `get`, which yields the first matching row or
`undefined`. -/
def Store.select_email (db : Store) (email : String) : Option String :=
  (db.account.find? (fun a => a.email == email)).map (fun a => a.email)

/-- Modelled from the spec: `select hashed_password from account where
email = $e and is_verified = 1` (server.js:158) through `get`. -/
def Store.select_hashed_password (db : Store) (e : String) : Option String :=
  (db.account.find? (fun a => a.email == e && a.is_verified == 1)).map
    (fun a => a.hashed_password)

/-- Modelled from the spec: `select * from account where email = $username and
is_verified = 1` (server.js:199) through `get`. -/
def Store.select_account (db : Store) (username : Option String) : Option Account :=
  db.account.find? (fun a => sql_eq a.email username && a.is_verified == 1)

/-- Modelled from the spec: `insert into account (email, hashed_password)
values ($e, $h)` (server.js:135); rejected when the email is taken (UNIQUE),
otherwise the row is added with `is_verified` at its default 0. -/
def Store.insert_account (db : Store) (e h : String) : Except Err Store :=
  if db.account.any (fun a => a.email == e) then .error .constraint
  else .ok { db with account := db.account ++ [⟨db.account.length + 1, e, h, 0⟩] }

/-- Modelled from the spec: `update account set is_verified = 1 where
email = $username` (server.js:178). -/
def Store.update_is_verified (db : Store) (username : Option String) : Store :=
  let verified := db.account.map
    (fun a => if sql_eq a.email username then { a with is_verified := 1 } else a)
  { db with account := verified }

/-- Modelled from the spec: `insert into event values (...)` (server.js:201). -/
def Store.insert_event (db : Store) (ev : Event) : Store :=
  { db with event := db.event ++ [ev] }

/-! ## Registry of pending registrations -/

/-- The record `{username, identifier}` stored at server.js:129. -/
structure Pending where
  username : String
  identifier : String
  deriving DecidableEq, Repr

/-- The object `register_email_users`: its own properties, keyed by string. -/
abbrev Registry := List (String × Pending)

/-- Own-property lookup: the pending registration stored under `token`. -/
def resolve (reg : Registry) (token : String) : Option Pending :=
  reg.lookup token

/-- The statement `delete register_email_users[key]`. -/
def Registry.delete (reg : Registry) (key : String) : Registry :=
  reg.filter (fun kv => !(kv.1 == key))

/-- The assignment `register_email_users[identifier] = record`, for an identifier drawn by
`uuid_v4()`: the record replaces whatever the key held. -/
def Registry.put (reg : Registry) (identifier : String) (record : Pending) : Registry :=
  (identifier, record) :: reg.delete identifier

/-- Property names every plain object inherits from `Object.prototype`. -/
def Object_prototype_names : List String :=
  ["constructor", "hasOwnProperty", "isPrototypeOf", "propertyIsEnumerable",
   "toLocaleString", "toString", "valueOf", "__proto__",
   "__defineGetter__", "__defineSetter__", "__lookupGetter__", "__lookupSetter__"]

/-- Result of the expression `register_email_users[identifier]`. -/
inductive Lookup
  | record (p : Pending)
  | inherited
  | undefined
  deriving DecidableEq, Repr

/-- The expression `register_email_users[identifier]`: an own property, else a member of
`Object.prototype` (which has no property `username`), else `undefined`. -/
def Registry.get (reg : Registry) (identifier : String) : Lookup :=
  match resolve reg identifier with
  | some p => .record p
  | none => if identifier ∈ Object_prototype_names then .inherited else .undefined

/-- The destructuring `const { username } = v`: throws a TypeError on `undefined`. -/
def Lookup.username (v : Lookup) : Except Err (Option String) :=
  match v with
  | .record p => .ok (some p.username)
  | .inherited => .ok none
  | .undefined => .error .type_error

/-- The property key a value is converted to in `obj[key]`. -/
def property_key (key : Option String) : String :=
  match key with
  | some k => k
  | none => "undefined"

/-! ## Session, mail, trace -/

/-- The fields of `req.session` that server.js uses; `none` is `undefined`. -/
structure Session where
  logged_in : Option Bool
  username : Option String
  deriving DecidableEq, Repr

/-- JavaScript truthiness of `req.session.logged_in`. -/
def truthy (v : Option Bool) : Bool :=
  match v with
  | some true => true
  | _ => false

/-- The object `mail_opts` built at server.js:137-143. -/
structure MailOpts where
  from_ : String
  to_ : String
  subject : String
  text : String
  html : String
  deriving DecidableEq, Repr

/-- Calls and session writes, recorded in the order the handlers issue them. -/
inductive Effect
  | session_logged_in (b : Bool)
  | session_username (u : Option String)
  | db_get (q : Query)
  | db_run (q : Query)
  | bcrypt_hash (password : String) (cost : Nat)
  | bcrypt_compare (password : String) (digest : String)
  | sendMail (opts : MailOpts)
  deriving DecidableEq, Repr

/-- Whether an effect is a call to the database (`get` or `run`). -/
def Effect.is_db : Effect → Bool
  | .db_get _ => true
  | .db_run _ => true
  | _ => false

/-- Whether an effect is a call to the mail transport. -/
def Effect.is_mail : Effect → Bool
  | .sendMail _ => true
  | _ => false

/-- State the handlers read and write. -/
structure State where
  db : Store
  register_email_users : Registry
  session : Session
  trace : List Effect
  deriving DecidableEq, Repr

/-- What a handler cannot decide by itself. `db_fault q` tells whether the
database rejects the call `q` for a reason of its own (connection error);
`bcrypt_hash` and `bcrypt_compare` are the results of `./bcrypt-promise`
(`none`, `false`: the promise is rejected); `sendMail` tells whether the
transport accepts a mail; `email_message` is `../lib/email-form`;
`getTime x` is `(new Date(x)).getTime()`. -/
structure Env where
  NODE_ENV : NodeEnv
  uuid_v4 : String
  db_fault : Query → Bool
  bcrypt_hash : String → Nat → Option String
  bcrypt_compare : String → String → Bool
  sendMail : MailOpts → Bool
  email_message : String → String → Option Bool → String
  getTime : Option String → Option Int

/-- Append an effect to the trace. -/
def State.log (s : State) (e : Effect) : State :=
  { s with trace := s.trace ++ [e] }

/-- The assignment `req.session.logged_in = b`. -/
def State.set_logged_in (s : State) (b : Bool) : State :=
  { s with session := { s.session with logged_in := some b },
           trace := s.trace ++ [.session_logged_in b] }

/-- The assignment `req.session.username = u`. -/
def State.set_username (s : State) (u : Option String) : State :=
  { s with session := { s.session with username := u },
           trace := s.trace ++ [.session_username u] }

/-! ## Collaborators -/

/-- The function `email_verify_link` (server.js:28-31). -/
def email_verify_link (node_env : NodeEnv) (identifier : String) : String :=
  if node_env = .debug then "http://localhost:8080/verify-account/" ++ identifier
  else "http://silicondzor.com/verify-account/" ++ identifier

/-- The function `send_mail` (server.js:39-46). `email_transporter` is `null` unless
`NODE_ENV` is `production` (server.js:24-37), and then the call on it throws
inside the promise, which is rejected; otherwise the promise follows the
callback of `sendMail`. -/
def send_mail (env : Env) (mail_opts : MailOpts) (s : State) : State × Except Err Unit :=
  if env.NODE_ENV = .production then
    let s := s.log (.sendMail mail_opts)
    if env.sendMail mail_opts then (s, .ok ()) else (s, .error .mail_error)
  else (s, .error .type_error)

/-- Modelled from the spec: `get` of `./sqlite-promises` (not in the source
tree) on the statement of server.js:120: rejected on a failure of the database,
else the row or `undefined`. -/
def db_get_email (env : Env) (db : Store) (email : String) : Except Err (Option String) :=
  if env.db_fault (.select_email email) then .error .db_error
  else .ok (db.select_email email)

/-- Modelled from the spec: `get` of `./sqlite-promises` on the statement of
server.js:158. -/
def db_get_hashed_password (env : Env) (db : Store) (e : String) :
    Except Err (Option String) :=
  if env.db_fault (.select_hashed_password e) then .error .db_error
  else .ok (db.select_hashed_password e)

/-- Modelled from the spec: `get` of `./sqlite-promises` on the statement of
server.js:199. -/
def db_get_account (env : Env) (db : Store) (username : Option String) :
    Except Err (Option Account) :=
  if env.db_fault (.select_account username) then .error .db_error
  else .ok (db.select_account username)

/-- Modelled from the spec: `run` of `./sqlite-promises` on the statement of
server.js:135. -/
def db_run_insert_account (env : Env) (db : Store) (e h : String) : Except Err Store :=
  if env.db_fault (.insert_account e h) then .error .db_error
  else db.insert_account e h

/-- Modelled from the spec: `run` of `./sqlite-promises` on the statement of
server.js:178. -/
def db_run_update_is_verified (env : Env) (db : Store) (username : Option String) :
    Except Err Store :=
  if env.db_fault (.update_is_verified username) then .error .db_error
  else .ok (db.update_is_verified username)

/-- Modelled from the spec: `run` of `./sqlite-promises` on the statement of
server.js:201. -/
def db_run_insert_event (env : Env) (db : Store) (ev : Event) : Except Err Store :=
  if env.db_fault (.insert_event ev) then .error .db_error
  else .ok (db.insert_event ev)

/-! ## Handlers -/

/-- Handler of `POST Routes.new_account` (server.js:115-149). -/
def new_account (env : Env) (username password : String) (s : State) : State × Outcome :=
  let s := s.log (.db_get (.select_email username))
  match db_get_email env s.db username with
  | .error e => (s, .unhandled_rejection e)
  | .ok (some _) => (s, .ended (.fail .invalid_username_already_picked))
  | .ok none =>
    let identifier := env.uuid_v4
    let s := { s with register_email_users :=
                 s.register_email_users.put identifier ⟨username, identifier⟩ }
    let verify_link := email_verify_link env.NODE_ENV identifier
    let s := s.log (.bcrypt_hash password 10)
    match env.bcrypt_hash password 10 with
    | none => (s, .unhandled_rejection .hash_error)
    | some hash =>
      let s := s.log (.db_run (.insert_account username hash))
      match db_run_insert_account env s.db username hash with
      | .error err => (s, .ended (.fail (.err_msg err)))
      | .ok db =>
        let s := { s with db := db }
        let mail_opts : MailOpts :=
          { from_ := "Silicondzor.com <iteratehackerspace@gmail.com> ",
            to_ := username,
            subject := "Verify account -- Silicondzor.com",
            text := env.email_message username verify_link (some false),
            html := env.email_message username verify_link none }
        match send_mail env mail_opts s with
        | (s, .error err) => (s, .ended (.fail (.err_msg err)))
        | (s, .ok _) => (s, .ended .ok)

/-- The inner `try` block of the sign-in handler (server.js:160-165): reading
`row.hashed_password` throws when `row` is `undefined`, `compare` rejects on a
mismatch, and only then is the session marked. -/
def sign_in_try (env : Env) (username password : String) (row : Option String)
    (s : State) : State × Except Err Outcome :=
  match row with
  | none => (s, .error .type_error)
  | some hashed_password =>
    let s := s.log (.bcrypt_compare password hashed_password)
    if env.bcrypt_compare password hashed_password then
      let s := s.set_logged_in true
      let s := s.set_username (some username)
      (s, .ok (.ended .ok))
    else (s, .error .compare_mismatch)

/-- Handler of `POST Routes.sign_in` (server.js:151-172). -/
def sign_in (env : Env) (username password : String) (s : State) : State × Outcome :=
  let s := s.set_logged_in false
  let s := s.log (.db_get (.select_hashed_password username))
  match db_get_hashed_password env s.db username with
  | .error _ => (s, .ended (.fail .invalid_email))
  | .ok row =>
    match sign_in_try env username password row s with
    | (s, .error _) => (s, .ended (.fail .invalid_credentials))
    | (s, .ok out) => (s, out)

/-- Handler of `GET Routes.new_account_verify` (server.js:174-191). -/
def new_account_verify (env : Env) (identifier : String) (s : State) : State × Outcome :=
  match (s.register_email_users.get identifier).username with
  | .error e => (s, .thrown e)
  | .ok username =>
    let s := s.log (.db_run (.update_is_verified username))
    match db_run_update_is_verified env s.db username with
    | .error _ => (s, .redirect "/")
    | .ok db =>
      let s := { s with db := db }
      let s := { s with register_email_users :=
                   s.register_email_users.delete (property_key username) }
      let s := s.set_logged_in true
      let s := s.set_username username
      (s, .redirect "/")

/-- The fields of `req.body` read by the add-tech-event handler. -/
structure EventBody where
  event_title : Option String
  start : Option String
  end_ : Option String
  event_description : Option String
  deriving DecidableEq, Repr

/-- Handler of `POST Routes.add_tech_event` (server.js:193-217). `all_day` is the
comparison of two fresh `Date` objects by identity, which is false. -/
def add_tech_event (env : Env) (b : EventBody) (s : State) : State × Outcome :=
  if truthy s.session.logged_in then
    let s := s.log (.db_get (.select_account s.session.username))
    match db_get_account env s.db s.session.username with
    | .error err => (s, .ended (.fail (.err_msg err)))
    | .ok none => (s, .ended (.fail (.err_msg .type_error)))
    | .ok (some query_result) =>
      let ev : Event :=
        { title := b.event_title,
          all_day := false,
          start := env.getTime b.start,
          end_ := env.getTime b.end_,
          description := b.event_description,
          creator := query_result.id }
      let s := s.log (.db_run (.insert_event ev))
      match db_run_insert_event env s.db ev with
      | .error err => (s, .ended (.fail (.err_msg err)))
      | .ok db => ({ s with db := db }, .ended .ok)
  else (s, .ended (.fail .invalid_session))

/-- The callback of `setInterval` (server.js:58): `register_email_users = {}`. -/
def sweep (s : State) : State :=
  { s with register_email_users := [] }

/-! ## Concrete environments and states -/

/-- An environment in which every collaborator succeeds: production mail
transport, no database failure, a hasher whose `compare` accepts exactly the
digests its `hash` returns. -/
def env_ok : Env :=
  { NODE_ENV := .production,
    uuid_v4 := "3b241101-e2bb-4255-8caf-4136c566a962",
    db_fault := fun _ => false,
    bcrypt_hash := fun pw _ => some ("$2a$10$" ++ pw),
    bcrypt_compare := fun pw digest => digest == "$2a$10$" ++ pw,
    sendMail := fun _ => true,
    email_message := fun username link _ => username ++ " " ++ link,
    getTime := fun _ => none }

/-- As `env_ok`, but the mail transport refuses every mail. -/
def env_mail_down : Env :=
  { env_ok with sendMail := fun _ => false }

/-- As `env_ok`, but the database rejects every call. -/
def env_db_down : Env :=
  { env_ok with db_fault := fun _ => true }

/-- A fresh session: nothing assigned yet. -/
def session_new : Session :=
  { logged_in := none, username := none }

/-- Empty database, empty registry, fresh session. -/
def state_empty : State :=
  { db := { account := [], event := [] },
    register_email_users := [],
    session := session_new,
    trace := [] }

/-- The state after alice registered with `env_ok` and before she follows the
link: her row is unverified and the registry holds her token. -/
def state_pending : State :=
  { db := { account := [⟨1, "alice@example.com", "$2a$10$pw123", 0⟩], event := [] },
    register_email_users :=
      [("3b241101-e2bb-4255-8caf-4136c566a962",
        ⟨"alice@example.com", "3b241101-e2bb-4255-8caf-4136c566a962"⟩)],
    session := session_new,
    trace := [] }

/-! ## Theorems -/

/-- On an identifier for which `register_email_users[identifier]` is
`undefined`, the verify handler throws and changes nothing. -/
theorem new_account_verify_undefined (env : Env) (identifier : String) (s : State)
    (h : s.register_email_users.get identifier = .undefined) :
    new_account_verify env identifier s = (s, .thrown .type_error) := by
  simp [new_account_verify, h, Lookup.username]

/-- A verification that succeeds removes the key `username` from the registry:
the token stays unless it equals the username. -/
theorem new_account_verify_token_kept (env : Env) (identifier : String) (p : Pending)
    (s : State) (hres : resolve s.register_email_users identifier = some p)
    (hdb : env.db_fault (.update_is_verified (some p.username)) = false)
    (hne : identifier ≠ p.username) :
    resolve (new_account_verify env identifier s).1.register_email_users identifier
      = some p := by
  have hdel : ∀ reg : Registry, resolve reg identifier = some p →
      resolve (reg.delete p.username) identifier = some p := by
    intro reg
    induction reg with
    | nil => simp [resolve]
    | cons kv rest ih =>
      obtain ⟨k, v⟩ := kv
      by_cases hk : identifier = k
      · subst hk
        simp [resolve, Registry.delete, List.filter_cons, hne, List.lookup]
      · have hk2 : (identifier == k) = false := by simpa using hk
        by_cases hku : k = p.username
        · subst hku
          intro h
          simp only [resolve, List.lookup, hk2] at h
          simpa [resolve, Registry.delete, List.filter_cons] using ih h
        · intro h
          simp only [resolve, List.lookup, hk2] at h
          have := ih h
          simp only [resolve, Registry.delete] at this
          simp [resolve, Registry.delete, List.filter_cons, hku, List.lookup, hk2, this]
  simp only [new_account_verify, Registry.get, Lookup.username, hres, db_run_update_is_verified,
    hdb, State.log, State.set_logged_in, State.set_username, property_key]
  exact hdel _ hres

/-- A sign-in whose query is answered with no row answers
`fail(invalid_credentials)`. -/
theorem sign_in_no_row_reply (env : Env) (username password : String) (s : State)
    (hdb : env.db_fault (.select_hashed_password username) = false)
    (hq : s.db.select_hashed_password username = none) :
    (sign_in env username password s).2 = .ended (.fail .invalid_credentials) := by
  simp [sign_in, db_get_hashed_password, sign_in_try, State.log, State.set_logged_in, hdb, hq]

/-- C1. The code departs from the claim: on an identifier that
`register_email_users` does not hold (here `expired-link` on the empty
registry, as after a sweep) the verify handler does not redirect to `/`: the
destructuring at server.js:176 throws a TypeError out of the handler, before
the promise chain whose `catch` would have redirected. -/
theorem new_account_verify_unknown_throws :
    resolve state_empty.register_email_users "expired-link" = none ∧
    (new_account_verify env_ok "expired-link" state_empty).2 = .thrown .type_error ∧
    (new_account_verify env_ok "expired-link" state_empty).2 ≠ .redirect "/" := by
  decide

/-- C2. The code departs from the claim: after a successful verification of
alice's token the registry still holds the token, because server.js:181
deletes the key `username`, not the key `identifier`; a second request with
the same token, from a fresh session, resolves again and is logged in. -/
theorem new_account_verify_token_survives :
    (new_account_verify env_ok "3b241101-e2bb-4255-8caf-4136c566a962" state_pending).2
      = .redirect "/" ∧
    (new_account_verify env_ok "3b241101-e2bb-4255-8caf-4136c566a962" state_pending).1.db.account
      = [⟨1, "alice@example.com", "$2a$10$pw123", 1⟩] ∧
    resolve
      (new_account_verify env_ok "3b241101-e2bb-4255-8caf-4136c566a962"
        state_pending).1.register_email_users
      "3b241101-e2bb-4255-8caf-4136c566a962"
      = some ⟨"alice@example.com", "3b241101-e2bb-4255-8caf-4136c566a962"⟩ ∧
    (new_account_verify env_ok "3b241101-e2bb-4255-8caf-4136c566a962"
      { (new_account_verify env_ok "3b241101-e2bb-4255-8caf-4136c566a962" state_pending).1
        with session := session_new }).1.session
      = { logged_in := some true, username := some "alice@example.com" } := by
  decide

/-- C3. The code departs from the claim: with alice's account unverified, so
that the query of server.js:157 yields no row, sign-in answers
`fail(invalid_credentials)`, not `fail(invalid_email)`: reading
`row.hashed_password` throws inside the inner `try`, whose `catch` answers.
The same holds on the empty database. -/
theorem sign_in_no_row_invalid_credentials :
    state_pending.db.select_hashed_password "alice@example.com" = none ∧
    (sign_in env_ok "alice@example.com" "pw123" state_pending).2
      = .ended (.fail .invalid_credentials) ∧
    (sign_in env_ok "alice@example.com" "pw123" state_empty).2
      = .ended (.fail .invalid_credentials) := by
  decide

/-- C6. When `req.session.logged_in` is not truthy, the add-tech-event handler
issues no call at all (the trace, which records every database call, is
unchanged), leaves the database, the registry and the session as they were,
and answers `fail(invalid_session)`. -/
theorem add_tech_event_gate (env : Env) (b : EventBody) (s : State)
    (h : truthy s.session.logged_in = false) :
    add_tech_event env b s = (s, .ended (.fail .invalid_session)) ∧
    ((add_tech_event env b s).1.trace.filter Effect.is_db = s.trace.filter Effect.is_db) ∧
    (add_tech_event env b s).1.db = s.db := by
  have h0 : add_tech_event env b s = (s, .ended (.fail .invalid_session)) := by
    simp [add_tech_event, h]
  simp [h0]

/-- Witness of C6: a fresh session, with the database down. -/
theorem add_tech_event_gate_witness :
    truthy state_empty.session.logged_in = false ∧
    add_tech_event env_db_down ⟨some "meetup", none, none, none⟩ state_empty
      = (state_empty, .ended (.fail .invalid_session)) ∧
    ((add_tech_event env_db_down ⟨some "meetup", none, none, none⟩ state_empty).1.trace.filter
      Effect.is_db = state_empty.trace.filter Effect.is_db) ∧
    (add_tech_event env_db_down ⟨some "meetup", none, none, none⟩ state_empty).1.db
      = state_empty.db :=
  ⟨by decide,
   add_tech_event_gate env_db_down ⟨some "meetup", none, none, none⟩ state_empty (by decide)⟩

/-- C8. After one sweep the registry is the empty mapping, whatever it held:
no token resolves, and the rest of the state is untouched. -/
theorem sweep_empties_registry (s : State) :
    (sweep s).register_email_users = [] ∧
    (∀ token : String, resolve (sweep s).register_email_users token = none) ∧
    (sweep s).db = s.db ∧ (sweep s).session = s.session := by
  simp [sweep, resolve]

/-- The verified-row query skips a row that is not verified. -/
theorem select_hashed_password_skip (pre post : List Account) (ev : List Event)
    (row : Account) (e : String) (h : row.is_verified = 0) :
    Store.select_hashed_password ⟨pre ++ row :: post, ev⟩ e
      = Store.select_hashed_password ⟨pre ++ post, ev⟩ e := by
  simp [Store.select_hashed_password, List.find?_append, List.find?_cons, h]

/-- Outcome and session of a sign-in depend on the database only through the
row the verified-row query yields. -/
theorem sign_in_congr (env : Env) (username password : String) (s1 s2 : State)
    (hs : s1.session = s2.session) (ht : s1.trace = s2.trace)
    (hq : s1.db.select_hashed_password username = s2.db.select_hashed_password username) :
    (sign_in env username password s1).2 = (sign_in env username password s2).2 ∧
    (sign_in env username password s1).1.session
      = (sign_in env username password s2).1.session ∧
    (sign_in env username password s1).1.trace
      = (sign_in env username password s2).1.trace := by
  simp only [sign_in, db_get_hashed_password, State.log, State.set_logged_in, hs, ht, hq]
  cases hf : env.db_fault (Query.select_hashed_password username)
  · cases hr : s2.db.select_hashed_password username with
    | none => simp [sign_in_try]
    | some d =>
      cases hc : env.bcrypt_compare password d <;>
        simp [sign_in_try, State.log, State.set_logged_in, State.set_username, hc]
  · simp

/-- The verified-row query yields no row when no account has the email. -/
theorem select_hashed_password_none (db : Store) (e : String)
    (h : ∀ a ∈ db.account, a.email ≠ e) : db.select_hashed_password e = none := by
  simp only [Store.select_hashed_password, Option.map_eq_none', List.find?_eq_none]
  intro a ha
  simp [h a ha]

/-- A sign-in that finds no row does not answer `ok`. -/
theorem sign_in_no_row (env : Env) (username password : String) (s : State)
    (hq : s.db.select_hashed_password username = none) :
    (sign_in env username password s).2 ≠ .ended .ok := by
  simp only [sign_in, db_get_hashed_password, State.log, State.set_logged_in, hq]
  cases hf : env.db_fault (Query.select_hashed_password username) <;> simp [sign_in_try]

/-- C4. Sign-in does not tell an unverified account from no account: for the
same request, environment, session and trace, a database that holds an
unverified row for `username` and the same database without that row, holding
no row for `username` at all, give the same response, the same session and the
same sequence of calls; and the response is not `ok`. -/
theorem sign_in_unverified_indistinguishable (env : Env) (username password : String)
    (s : State) (pre post : List Account) (ev : List Event) (id : Nat) (digest : String)
    (hnone : ∀ a ∈ pre ++ post, a.email ≠ username) :
    (sign_in env username password
        { s with db := ⟨pre ++ ⟨id, username, digest, 0⟩ :: post, ev⟩ }).2
      = (sign_in env username password { s with db := ⟨pre ++ post, ev⟩ }).2 ∧
    (sign_in env username password
        { s with db := ⟨pre ++ ⟨id, username, digest, 0⟩ :: post, ev⟩ }).1.session
      = (sign_in env username password { s with db := ⟨pre ++ post, ev⟩ }).1.session ∧
    (sign_in env username password
        { s with db := ⟨pre ++ ⟨id, username, digest, 0⟩ :: post, ev⟩ }).1.trace
      = (sign_in env username password { s with db := ⟨pre ++ post, ev⟩ }).1.trace ∧
    (sign_in env username password { s with db := ⟨pre ++ post, ev⟩ }).2 ≠ .ended .ok := by
  obtain ⟨h1, h2, h3⟩ := sign_in_congr env username password
    { s with db := ⟨pre ++ ⟨id, username, digest, 0⟩ :: post, ev⟩ }
    { s with db := ⟨pre ++ post, ev⟩ } rfl rfl
    (select_hashed_password_skip pre post ev ⟨id, username, digest, 0⟩ username rfl)
  exact ⟨h1, h2, h3, sign_in_no_row env username password _
    (select_hashed_password_none _ username hnone)⟩

/-- Witness of C4: alice unverified against the empty database, signing in
from a session that was logged in as bob. -/
theorem sign_in_unverified_indistinguishable_witness :
    (∀ a ∈ ([] : List Account) ++ [], a.email ≠ "alice@example.com") ∧
    (sign_in env_ok "alice@example.com" "pw123"
        { state_empty with
          session := ⟨some true, some "bob@example.com"⟩,
          db := ⟨[] ++ ⟨1, "alice@example.com", "$2a$10$pw123", 0⟩ :: [], []⟩ }).2
      = (sign_in env_ok "alice@example.com" "pw123"
        { state_empty with
          session := ⟨some true, some "bob@example.com"⟩, db := ⟨[] ++ [], []⟩ }).2 :=
  ⟨by simp,
   (sign_in_unverified_indistinguishable env_ok "alice@example.com" "pw123"
      { state_empty with session := ⟨some true, some "bob@example.com"⟩ }
      [] [] [] 1 "$2a$10$pw123" (by simp)).1⟩

/-- C7. For every environment, request and prior state: a sign-in that does
not answer `ok` (query rejected, no verified row, or password mismatch) leaves
`logged_in = false`, whatever the session held before; and, whether it answers
`ok` or not, the first two effects of the sign-in are, in this order, the write
`logged_in = false` and the database query. -/
theorem sign_in_failure_logged_out (env : Env) (username password : String) (s : State) :
    ((sign_in env username password s).2 ≠ .ended .ok →
      (sign_in env username password s).1.session.logged_in = some false) ∧
    ∃ rest : List Effect,
      (sign_in env username password s).1.trace
        = s.trace ++ Effect.session_logged_in false
            :: Effect.db_get (.select_hashed_password username) :: rest := by
  simp only [sign_in, db_get_hashed_password, State.log, State.set_logged_in]
  cases hf : env.db_fault (Query.select_hashed_password username)
  · cases hr : s.db.select_hashed_password username with
    | none => simp [sign_in_try]
    | some d =>
      cases hc : env.bcrypt_compare password d <;>
        simp [sign_in_try, State.log, State.set_logged_in, State.set_username, hc]
  · simp

/-- Witness of C7: bob is logged in and signs in as alice with a wrong
password; the session ends logged out. -/
theorem sign_in_failure_logged_out_witness :
    (sign_in env_ok "alice@example.com" "wrong"
        { state_pending with
          db := ⟨[⟨1, "alice@example.com", "$2a$10$pw123", 1⟩], []⟩,
          session := ⟨some true, some "bob@example.com"⟩ }).2 ≠ .ended .ok ∧
    (sign_in env_ok "alice@example.com" "wrong"
        { state_pending with
          db := ⟨[⟨1, "alice@example.com", "$2a$10$pw123", 1⟩], []⟩,
          session := ⟨some true, some "bob@example.com"⟩ }).1.session.logged_in
      = some false :=
  ⟨by decide,
   (sign_in_failure_logged_out env_ok "alice@example.com" "wrong"
      { state_pending with
        db := ⟨[⟨1, "alice@example.com", "$2a$10$pw123", 1⟩], []⟩,
        session := ⟨some true, some "bob@example.com"⟩ }).1 (by decide)⟩

/-- The existence query yields no row when no account has the email. -/
theorem select_email_none (db : Store) (e : String)
    (h : ∀ a ∈ db.account, a.email ≠ e) : db.select_email e = none := by
  simp only [Store.select_email, Option.map_eq_none', List.find?_eq_none]
  intro a ha
  simp [h a ha]

/-- The insert is accepted when no account has the email. -/
theorem insert_account_fresh (db : Store) (e h : String)
    (hfresh : ∀ a ∈ db.account, a.email ≠ e) :
    db.insert_account e h
      = .ok { db with account := db.account ++ [⟨db.account.length + 1, e, h, 0⟩] } := by
  have hany : db.account.any (fun a => a.email == e) = false := by
    simp only [List.any_eq_false]
    intro a ha
    simp [hfresh a ha]
  simp [Store.insert_account, hany]

/-- A registration that passes every step: the state it leaves. -/
theorem new_account_success (env : Env) (username password hash : String) (s : State)
    (hfresh : ∀ a ∈ s.db.account, a.email ≠ username)
    (hdb : ∀ q, env.db_fault q = false)
    (hhash : env.bcrypt_hash password 10 = some hash)
    (hprod : env.NODE_ENV = .production) (hmail : ∀ m, env.sendMail m = true) :
    (new_account env username password s).2 = .ended .ok ∧
    (new_account env username password s).1.db
      = { s.db with account :=
            s.db.account ++ [⟨s.db.account.length + 1, username, hash, 0⟩] } ∧
    (new_account env username password s).1.register_email_users
      = s.register_email_users.put env.uuid_v4 ⟨username, env.uuid_v4⟩ ∧
    (new_account env username password s).1.session = s.session := by
  simp [new_account, db_get_email, db_run_insert_account, send_mail, State.log, hdb,
    select_email_none s.db username hfresh, hhash, insert_account_fresh s.db username hash hfresh,
    hprod, hmail]

/-- The existence query yields a row as soon as an account has the email. -/
theorem select_email_isSome (db : Store) (e : String)
    (h : ∃ a ∈ db.account, a.email = e) : (db.select_email e).isSome = true := by
  obtain ⟨a, ha, hae⟩ := h
  simp only [Store.select_email, Option.isSome_map', List.find?_isSome]
  exact ⟨a, ha, by simp [hae]⟩

/-- A registration for an email that has an account: the existence query is
the only call, and the answer is `fail(invalid_username_already_picked)`. -/
theorem new_account_duplicate (env : Env) (username password : String) (s : State)
    (h : ∃ a ∈ s.db.account, a.email = username)
    (hdb : env.db_fault (.select_email username) = false) :
    new_account env username password s
      = (s.log (.db_get (.select_email username)),
         .ended (.fail .invalid_username_already_picked)) := by
  have hsome := select_email_isSome s.db username h
  cases hq : s.db.select_email username with
  | none => simp [hq] at hsome
  | some r => simp [new_account, db_get_email, State.log, hdb, hq]

/-- Counterexample to C5 as stated. Alice registers with every call
succeeding and the answer is `ok`; a second registration for her email, for
which the database rejects the existence query, does not answer
`fail(invalid_username_already_picked)`: the `await` of server.js:118-121 is
outside any `try`, the rejection is not handled and no response is written. -/
theorem new_account_twice_store_down :
    (new_account env_ok "alice@example.com" "pw123" state_empty).2 = .ended .ok ∧
    (new_account env_db_down "alice@example.com" "other"
        (new_account env_ok "alice@example.com" "pw123" state_empty).1).2
      = .unhandled_rejection .db_error ∧
    (new_account env_db_down "alice@example.com" "other"
        (new_account env_ok "alice@example.com" "pw123" state_empty).1).2
      ≠ .ended (.fail .invalid_username_already_picked) := by
  decide

/-- C5, amended. Two registrations for one email, one after the other, the
email having no account before and every call of the first succeeding: the
first answers `ok` and adds exactly one row, unverified; the second, when the
database answers its existence query, answers
`fail(invalid_username_already_picked)`, leaves the database and the registry
as the first left them, and issues no call but that query: no hash, no insert,
no mail. -/
theorem new_account_twice (env1 env2 : Env) (email pw1 pw2 hash : String) (s : State)
    (hfresh : ∀ a ∈ s.db.account, a.email ≠ email)
    (hdb1 : ∀ q, env1.db_fault q = false)
    (hhash : env1.bcrypt_hash pw1 10 = some hash)
    (hprod : env1.NODE_ENV = .production) (hmail : ∀ m, env1.sendMail m = true)
    (hdb2 : env2.db_fault (.select_email email) = false) :
    (new_account env1 email pw1 s).2 = .ended .ok ∧
    (new_account env1 email pw1 s).1.db.account
      = s.db.account ++ [⟨s.db.account.length + 1, email, hash, 0⟩] ∧
    (new_account env2 email pw2 (new_account env1 email pw1 s).1).2
      = .ended (.fail .invalid_username_already_picked) ∧
    (new_account env2 email pw2 (new_account env1 email pw1 s).1).1.db
      = (new_account env1 email pw1 s).1.db ∧
    (new_account env2 email pw2 (new_account env1 email pw1 s).1).1.register_email_users
      = (new_account env1 email pw1 s).1.register_email_users ∧
    (new_account env2 email pw2 (new_account env1 email pw1 s).1).1.trace
      = (new_account env1 email pw1 s).1.trace ++ [.db_get (.select_email email)] ∧
    (new_account env2 email pw2 (new_account env1 email pw1 s).1).1.trace.filter
        Effect.is_mail
      = (new_account env1 email pw1 s).1.trace.filter Effect.is_mail := by
  obtain ⟨h1, h2, -, -⟩ := new_account_success env1 email pw1 hash s hfresh hdb1 hhash hprod hmail
  have hmem : ∃ a ∈ (new_account env1 email pw1 s).1.db.account, a.email = email := by
    rw [h2]
    exact ⟨⟨s.db.account.length + 1, email, hash, 0⟩, by simp, rfl⟩
  rw [new_account_duplicate env2 email pw2 _ hmem hdb2]
  refine ⟨h1, ?_, rfl, rfl, rfl, rfl, ?_⟩
  · rw [h2]
  · simp [State.log, Effect.is_mail]

/-- Witness of C5: alice registers twice on the empty database. -/
theorem new_account_twice_witness :
    (∀ a ∈ state_empty.db.account, a.email ≠ "alice@example.com") ∧
    (new_account env_ok "alice@example.com" "pw123" state_empty).2 = .ended .ok ∧
    (new_account env_ok "alice@example.com" "other"
        (new_account env_ok "alice@example.com" "pw123" state_empty).1).2
      = .ended (.fail .invalid_username_already_picked) :=
  have h := new_account_twice env_ok env_ok "alice@example.com" "pw123" "other"
    "$2a$10$pw123" state_empty (by simp [state_empty]) (fun _ => rfl) rfl rfl (fun _ => rfl) rfl
  ⟨by simp [state_empty], h.1, h.2.2.1⟩

/-- C10. A registration whose insert succeeds and whose mail fails (no
transport outside production, or the transport refuses the mail) answers a
fail payload; the inserted row stays in the database, unverified, and the
registry maps the token drawn to the username. -/
theorem new_account_mail_failure (env : Env) (username password hash : String) (s : State)
    (hfresh : ∀ a ∈ s.db.account, a.email ≠ username)
    (hdb : ∀ q, env.db_fault q = false)
    (hhash : env.bcrypt_hash password 10 = some hash)
    (hmail : env.NODE_ENV = .production → ∀ m, env.sendMail m = false) :
    (∃ reason, (new_account env username password s).2 = .ended (.fail reason)) ∧
    (new_account env username password s).2 ≠ .ended .ok ∧
    (new_account env username password s).1.db.account
      = s.db.account ++ [⟨s.db.account.length + 1, username, hash, 0⟩] ∧
    resolve (new_account env username password s).1.register_email_users env.uuid_v4
      = some ⟨username, env.uuid_v4⟩ := by
  by_cases hprod : env.NODE_ENV = .production
  · simp [new_account, db_get_email, db_run_insert_account, send_mail, State.log, hdb,
      select_email_none s.db username hfresh, hhash,
      insert_account_fresh s.db username hash hfresh, hprod, hmail hprod, resolve,
      Registry.put]
  · simp [new_account, db_get_email, db_run_insert_account, send_mail, State.log, hdb,
      select_email_none s.db username hfresh, hhash,
      insert_account_fresh s.db username hash hfresh, hprod, resolve, Registry.put]

/-- Witness of C10: alice registers while the transport refuses every mail. -/
theorem new_account_mail_failure_witness :
    (∀ a ∈ state_empty.db.account, a.email ≠ "alice@example.com") ∧
    (new_account env_mail_down "alice@example.com" "pw123" state_empty).2 ≠ .ended .ok ∧
    (new_account env_mail_down "alice@example.com" "pw123" state_empty).1.db.account
      = state_empty.db.account ++ [⟨state_empty.db.account.length + 1, "alice@example.com",
          "$2a$10$pw123", 0⟩] :=
  have h := new_account_mail_failure env_mail_down "alice@example.com" "pw123"
    "$2a$10$pw123" state_empty (by simp [state_empty]) (fun _ => rfl) rfl (fun _ _ => rfl)
  ⟨by simp [state_empty], h.2.1, h.2.2.1⟩

/-- Looking up the key just put yields the record put. -/
theorem resolve_put (reg : Registry) (identifier : String) (record : Pending) :
    resolve (reg.put identifier record) identifier = some record := by
  simp [resolve, Registry.put]

/-- A verification whose token resolves and whose update is accepted: the
state it leaves. -/
theorem new_account_verify_success (env : Env) (identifier : String) (p : Pending) (s : State)
    (hres : resolve s.register_email_users identifier = some p)
    (hdb : env.db_fault (.update_is_verified (some p.username)) = false) :
    (new_account_verify env identifier s).2 = .redirect "/" ∧
    (new_account_verify env identifier s).1.db = s.db.update_is_verified (some p.username) ∧
    (new_account_verify env identifier s).1.register_email_users
      = s.register_email_users.delete p.username ∧
    (new_account_verify env identifier s).1.session
      = { logged_in := some true, username := some p.username } := by
  simp [new_account_verify, Registry.get, Lookup.username, hres, db_run_update_is_verified,
    hdb, State.log, State.set_logged_in, State.set_username, property_key]

/-- A sign-in whose query yields a row with a digest the hasher accepts. -/
theorem sign_in_success (env : Env) (username password digest : String) (s : State)
    (hdb : env.db_fault (.select_hashed_password username) = false)
    (hrow : s.db.select_hashed_password username = some digest)
    (hcmp : env.bcrypt_compare password digest = true) :
    (sign_in env username password s).2 = .ended .ok ∧
    (sign_in env username password s).1.session
      = { logged_in := some true, username := some username } ∧
    (sign_in env username password s).1.db = s.db := by
  simp [sign_in, db_get_hashed_password, sign_in_try, State.log, State.set_logged_in,
    State.set_username, hdb, hrow, hcmp]

/-- After the row for `username` is inserted into a database that had none and
is then marked verified, the verified-row query yields its digest. -/
theorem select_hashed_password_verified (db : Store) (username hash : String)
    (hfresh : ∀ a ∈ db.account, a.email ≠ username) :
    (Store.update_is_verified
        { db with account := db.account ++ [⟨db.account.length + 1, username, hash, 0⟩] }
        (some username)).select_hashed_password username = some hash := by
  have hpre : List.find? (fun a => a.email == username && a.is_verified == 1)
      (db.account.map (fun a =>
        if sql_eq a.email (some username) then { a with is_verified := 1 } else a)) = none := by
    simp only [List.find?_eq_none, List.mem_map]
    rintro x ⟨a, ha, rfl⟩
    simp [sql_eq, hfresh a ha]
  simp only [Store.update_is_verified, Store.select_hashed_password, List.map_append,
    List.find?_append, hpre]
  simp [sql_eq]

/-- C9. From a database with no account for `u`, with every database and mail
call succeeding and a hasher whose `compare` accepts `p` against the digest
`hash(p)` returned at registration: `register(u, p)` answers `ok`; the
verification of the token it drew, from any session, redirects, leaves the row
of `u` with `is_verified = 1` and the session logged in as `u`; and a following
`sign-in(u, p)`, from any session, answers `ok` with the session logged in as
`u`. -/
theorem register_verify_sign_in (env1 env2 env3 : Env) (u p hash : String) (s : State)
    (sess2 sess3 : Session)
    (hfresh : ∀ a ∈ s.db.account, a.email ≠ u)
    (hdb1 : ∀ q, env1.db_fault q = false)
    (hdb2 : ∀ q, env2.db_fault q = false)
    (hdb3 : ∀ q, env3.db_fault q = false)
    (hhash : env1.bcrypt_hash p 10 = some hash)
    (hcmp : env3.bcrypt_compare p hash = true)
    (hprod : env1.NODE_ENV = .production) (hmail : ∀ m, env1.sendMail m = true) :
    (new_account env1 u p s).2 = .ended .ok ∧
    (new_account_verify env2 env1.uuid_v4
        { (new_account env1 u p s).1 with session := sess2 }).2 = .redirect "/" ∧
    (new_account_verify env2 env1.uuid_v4
        { (new_account env1 u p s).1 with session := sess2 }).1.db.account
      = s.db.account ++ [⟨s.db.account.length + 1, u, hash, 1⟩] ∧
    (new_account_verify env2 env1.uuid_v4
        { (new_account env1 u p s).1 with session := sess2 }).1.session
      = { logged_in := some true, username := some u } ∧
    (sign_in env3 u p
        { (new_account_verify env2 env1.uuid_v4
            { (new_account env1 u p s).1 with session := sess2 }).1 with session := sess3 }).2
      = .ended .ok ∧
    (sign_in env3 u p
        { (new_account_verify env2 env1.uuid_v4
            { (new_account env1 u p s).1 with session := sess2 }).1
          with session := sess3 }).1.session
      = { logged_in := some true, username := some u } := by
  obtain ⟨h1, h2, h3, -⟩ := new_account_success env1 u p hash s hfresh hdb1 hhash hprod hmail
  have hres : resolve ({ (new_account env1 u p s).1 with session := sess2 }
      : State).register_email_users env1.uuid_v4 = some ⟨u, env1.uuid_v4⟩ := by
    simp only [h3, resolve_put]
  obtain ⟨v1, v2, -, v4⟩ := new_account_verify_success env2 env1.uuid_v4 ⟨u, env1.uuid_v4⟩
    { (new_account env1 u p s).1 with session := sess2 } hres (hdb2 _)
  have hrow : ({ (new_account_verify env2 env1.uuid_v4
      { (new_account env1 u p s).1 with session := sess2 }).1 with session := sess3 }
      : State).db.select_hashed_password u = some hash := by
    show (new_account_verify env2 env1.uuid_v4
      { (new_account env1 u p s).1 with session := sess2 }).1.db.select_hashed_password u
      = some hash
    rw [v2]
    show ((new_account env1 u p s).1.db.update_is_verified (some u)).select_hashed_password u
      = some hash
    rw [h2]
    exact select_hashed_password_verified s.db u hash hfresh
  obtain ⟨g1, g2, -⟩ := sign_in_success env3 u p hash _ (hdb3 _) hrow hcmp
  refine ⟨h1, v1, ?_, v4, g1, g2⟩
  rw [v2]
  show ((new_account env1 u p s).1.db.update_is_verified (some u)).account
    = s.db.account ++ [⟨s.db.account.length + 1, u, hash, 1⟩]
  rw [h2]
  simp only [Store.update_is_verified, List.map_append, List.map_cons, List.map_nil]
  have hpre : s.db.account.map (fun a =>
      if sql_eq a.email (some u) then { a with is_verified := 1 } else a) = s.db.account := by
    conv_rhs => rw [← List.map_id s.db.account]
    apply List.map_congr_left
    intro a ha
    simp [sql_eq, hfresh a ha]
  rw [hpre]
  simp [sql_eq]

/-- Witness of C9: alice registers on the empty database, follows the link and
signs in. -/
theorem register_verify_sign_in_witness :
    (∀ a ∈ state_empty.db.account, a.email ≠ "alice@example.com") ∧
    env_ok.bcrypt_compare "pw123" "$2a$10$pw123" = true ∧
    (sign_in env_ok "alice@example.com" "pw123"
        { (new_account_verify env_ok env_ok.uuid_v4
            { (new_account env_ok "alice@example.com" "pw123" state_empty).1
              with session := session_new }).1 with session := session_new }).2
      = .ended .ok :=
  have h := register_verify_sign_in env_ok env_ok env_ok "alice@example.com" "pw123"
    "$2a$10$pw123" state_empty session_new session_new (by simp [state_empty])
    (fun _ => rfl) (fun _ => rfl) (fun _ => rfl) rfl (by decide) rfl (fun _ => rfl)
  ⟨by simp [state_empty], by decide, h.2.2.2.2.1⟩

end Silicondzor
